import Mathlib

/-
Verification of the VastuHelper floor-plan compliance checker.

The repository ships a React frontend (App.js, ThemeContext.js) and a
README describing a FastAPI backend whose compliance rule engine is not
present in the source tree.  The engine definitions below are therefore
modelled from the specification; the frontend definitions are translated
from the JavaScript source.
-/

namespace VastuHelper

/-- Modelled from the spec: the eight compass directions of the Room data
model (spec section 3); the backend engine source is missing from the
repository. -/
inductive Direction
  | north | south | east | west | northeast | northwest | southeast | southwest
deriving DecidableEq

/-- Modelled from the spec: the closed enumeration of room types (spec
section 3); the backend engine source is missing from the repository. -/
inductive RoomType
  | bedroom | bathroom | kitchen | living_room | study | pooja | entrance | other
deriving DecidableEq

/-- Modelled from the spec: finding severities pass, info, warning,
violation (spec section 3); the backend engine source is missing from the
repository. -/
inductive Severity
  | pass | info | warning | violation
deriving DecidableEq

/-- Modelled from the spec: the three rule layers (spec section 3); the
backend engine source is missing from the repository. -/
inductive Layer
  | building_code | vastu | sunlight
deriving DecidableEq

/-- Modelled from the spec: building types (spec section 3); the backend
engine source is missing from the repository. -/
inductive BuildingType
  | residential | commercial | industrial | mixed
deriving DecidableEq

/-- Modelled from the spec: qualitative sunlight exposure levels (spec
section 4.3); the backend engine source is missing from the repository. -/
inductive Exposure
  | high | medium | low
deriving DecidableEq

/-- Modelled from the spec: the Room record of the Floor Plan Model (spec
section 3); coordinates are optional and area is taken as supplied
directly.  The backend engine source is missing from the repository. -/
structure Room where
  id : String
  type : RoomType
  area : ℚ
  direction : Direction
  windows : Nat
  doors : Nat
deriving DecidableEq

/-- Modelled from the spec: the BuildingInfo record (spec section 3); the
backend engine source is missing from the repository. -/
structure BuildingInfo where
  total_area : ℚ
  floors : Nat
  building_type : BuildingType
deriving DecidableEq

/-- Modelled from the spec: a FloorPlan is an ordered sequence of rooms
plus one BuildingInfo (spec section 3); the backend engine source is
missing from the repository. -/
structure FloorPlan where
  rooms : List Room
  building_info : BuildingInfo
deriving DecidableEq

/-- Modelled from the spec: the Finding record, the atomic output unit
(spec section 3); the backend engine source is missing from the
repository. -/
structure Finding where
  room_id : Option String
  layer : Layer
  severity : Severity
  rule_id : String
  message : String
  suggestion : Option String
deriving DecidableEq

/-- Modelled from the spec: the injectable configuration surface of the
engine, recognized options minAreaByType, vastuPreferences,
sunlightExposureByDirection, sunlightDesiredByType (spec section 6); the
backend engine source is missing from the repository.  A type missing
from a type-keyed table is the ConfigurationError case of spec section
7. -/
structure Config where
  minAreaByType : RoomType → Option ℚ
  vastuPreferences : RoomType → Option (List Direction × List Direction)
  sunlightExposureByDirection : Direction → Exposure
  sunlightDesiredByType : RoomType → Option Exposure

/-- Modelled from the spec: structural validity of a FloorPlan (spec
section 3 invariants); the backend engine source is missing from the
repository. -/
def ValidFloorPlan (fp : FloorPlan) : Prop :=
  0 < fp.building_info.total_area ∧ 0 < fp.building_info.floors ∧
    ∀ r ∈ fp.rooms, 0 < r.area

instance : DecidablePred ValidFloorPlan := fun fp => by
  unfold ValidFloorPlan
  infer_instance

def minAreaRuleId : String := "building_code.min_area"

def windowRuleId : String := "building_code.window_requirement"

def exitRuleId : String := "building_code.exit_path"

def areaConsistencyRuleId : String := "building_code.area_consistency"

def vastuDirectionRuleId : String := "vastu.direction"

def sunlightRuleId : String := "sunlight.exposure"

/-- Modelled from the spec: outcome of the minimum-area rule (spec
section 4.1): below threshold is a violation, within 10 percent above is
info, otherwise pass; a missing table entry degrades to an info finding
(spec section 7).  The backend engine source is missing from the
repository. -/
def minAreaOutcome (cfg : Config) (r : Room) : Severity × String × Option String :=
  match cfg.minAreaByType r.type with
  | none => (Severity.info, "rule not configured for this room type", none)
  | some t =>
    if r.area < t then
      (Severity.violation, "area below minimum for room type",
        some "increase the room area to meet the minimum")
    else if r.area ≤ t * (11 / 10) then
      (Severity.info, "adequate but tight", none)
    else
      (Severity.pass, "meets the minimum area for room type", none)

/-- Modelled from the spec: the minimum-area rule finding for one room
(spec section 4.1); the backend engine source is missing from the
repository. -/
def minAreaRule (cfg : Config) (r : Room) : Finding :=
  { room_id := some r.id, layer := Layer.building_code,
    severity := (minAreaOutcome cfg r).1, rule_id := minAreaRuleId,
    message := (minAreaOutcome cfg r).2.1,
    suggestion := (minAreaOutcome cfg r).2.2 }

/-- Modelled from the spec: habitable room types requiring windows and
egress (spec section 4.1); the backend engine source is missing from the
repository. -/
def habitable : RoomType → Bool
  | RoomType.bedroom => true
  | RoomType.living_room => true
  | RoomType.kitchen => true
  | RoomType.study => true
  | _ => false

/-- Modelled from the spec: the window requirement rule (spec section
4.1); habitable rooms with zero windows get a violation, otherwise the
requirement passes; non-habitable rooms are not evaluated.  The backend
engine source is missing from the repository. -/
def windowRule (r : Room) : List Finding :=
  if habitable r.type then
    if r.windows = 0 then
      [{ room_id := some r.id, layer := Layer.building_code,
         severity := Severity.violation, rule_id := windowRuleId,
         message := "habitable room has no window",
         suggestion := some "add a window for ventilation and light" }]
    else
      [{ room_id := some r.id, layer := Layer.building_code,
         severity := Severity.pass, rule_id := windowRuleId,
         message := "window requirement met", suggestion := none }]
  else []

/-- Modelled from the spec: the exit-path rule (spec section 4.1);
habitable rooms with zero doors get a violation (no egress).  The backend
engine source is missing from the repository. -/
def exitRule (r : Room) : List Finding :=
  if habitable r.type then
    if r.doors = 0 then
      [{ room_id := some r.id, layer := Layer.building_code,
         severity := Severity.violation, rule_id := exitRuleId,
         message := "no egress",
         suggestion := some "add a door to provide an exit path" }]
    else
      [{ room_id := some r.id, layer := Layer.building_code,
         severity := Severity.pass, rule_id := exitRuleId,
         message := "exit path requirement met", suggestion := none }]
  else []

/-- Modelled from the spec: all Building Code findings for one room, each
rule independent and evaluated in a fixed order (spec section 4.1); the
backend engine source is missing from the repository. -/
def bcRoomFindings (cfg : Config) (r : Room) : List Finding :=
  minAreaRule cfg r :: (windowRule r ++ exitRule r)

/-- Modelled from the spec: the building-wide area consistency check
(spec section 4.1); a warning when total area is less than the sum of
room areas.  The backend engine source is missing from the repository. -/
def areaConsistencyFindings (fp : FloorPlan) : List Finding :=
  if fp.building_info.total_area < (fp.rooms.map Room.area).sum then
    [{ room_id := none, layer := Layer.building_code,
       severity := Severity.warning, rule_id := areaConsistencyRuleId,
       message := "total area is less than the sum of room areas",
       suggestion := none }]
  else []

def dirIndex : Direction → Nat
  | Direction.north => 0
  | Direction.northeast => 1
  | Direction.east => 2
  | Direction.southeast => 3
  | Direction.south => 4
  | Direction.southwest => 5
  | Direction.west => 6
  | Direction.northwest => 7

/-- Modelled from the spec: angular distance between compass directions,
used to pick the nearest preferred direction (spec section 4.2); the
backend engine source is missing from the repository. -/
def dirDistance (a b : Direction) : Nat :=
  let d := (dirIndex a + 8 - dirIndex b) % 8
  min d (8 - d)

/-- Modelled from the spec: the nearest preferred direction, ties broken
by the first entry of the preferred list (spec section 4.2); the backend
engine source is missing from the repository. -/
def nearestPreferred (d : Direction) : List Direction → Option Direction
  | [] => none
  | p :: ps =>
    match nearestPreferred d ps with
    | none => some p
    | some q => if dirDistance d q < dirDistance d p then some q else some p

def dirName : Direction → String
  | Direction.north => "north"
  | Direction.south => "south"
  | Direction.east => "east"
  | Direction.west => "west"
  | Direction.northeast => "northeast"
  | Direction.northwest => "northwest"
  | Direction.southeast => "southeast"
  | Direction.southwest => "southwest"

/-- Modelled from the spec: outcome of the Vastu direction rule for one
room (spec section 4.2): preferred direction passes, inauspicious
direction is a violation suggesting the nearest preferred direction,
anything else is info; a missing table entry degrades to an info finding
(spec section 7).  The backend engine source is missing from the
repository. -/
def vastuOutcome (cfg : Config) (r : Room) : Severity × String × Option String :=
  match cfg.vastuPreferences r.type with
  | none => (Severity.info, "rule not configured for this room type", none)
  | some (preferred, inauspicious) =>
    if r.direction ∈ preferred then
      (Severity.pass, "ideal placement for this room type", none)
    else if r.direction ∈ inauspicious then
      (Severity.violation, "inauspicious direction for this room type",
        (nearestPreferred r.direction preferred).map dirName)
    else
      (Severity.info, "acceptable but not optimal", none)

/-- Modelled from the spec: the Vastu finding for one room (spec section
4.2); the backend engine source is missing from the repository. -/
def vastuRule (cfg : Config) (r : Room) : Finding :=
  { room_id := some r.id, layer := Layer.vastu,
    severity := (vastuOutcome cfg r).1, rule_id := vastuDirectionRuleId,
    message := (vastuOutcome cfg r).2.1,
    suggestion := (vastuOutcome cfg r).2.2 }

/-- Modelled from the spec: outcome of the sunlight rule for one room
(spec section 4.3): desired exposure with a window passes, desired
exposure without a window is info, a mismatch is a warning and never a
violation; a missing table entry degrades to an info finding (spec
section 7).  The backend engine source is missing from the repository. -/
def sunlightOutcome (cfg : Config) (r : Room) : Severity × String × Option String :=
  match cfg.sunlightDesiredByType r.type with
  | none => (Severity.info, "rule not configured for this room type", none)
  | some want =>
    if cfg.sunlightExposureByDirection r.direction = want then
      if 1 ≤ r.windows then
        (Severity.pass, "desired exposure achieved", none)
      else
        (Severity.info, "good orientation but no windows",
          some "add windows to use the natural light")
    else
      (Severity.warning, "exposure mismatch for this room type",
        some "use window treatments or consider relocation")

/-- Modelled from the spec: the sunlight finding for one room (spec
section 4.3); the backend engine source is missing from the
repository. -/
def sunlightRule (cfg : Config) (r : Room) : Finding :=
  { room_id := some r.id, layer := Layer.sunlight,
    severity := (sunlightOutcome cfg r).1, rule_id := sunlightRuleId,
    message := (sunlightOutcome cfg r).2.1,
    suggestion := (sunlightOutcome cfg r).2.2 }

/-- Modelled from the spec: all findings of one layer, room findings in
room insertion order; the Vastu layer applies only to residential
buildings (spec sections 4.2 and 4.4).  The backend engine source is
missing from the repository. -/
def evaluateLayer (cfg : Config) (fp : FloorPlan) : Layer → List Finding
  | Layer.building_code =>
      fp.rooms.flatMap (bcRoomFindings cfg) ++ areaConsistencyFindings fp
  | Layer.vastu =>
      if fp.building_info.building_type = BuildingType.residential then
        fp.rooms.map (vastuRule cfg)
      else []
  | Layer.sunlight => fp.rooms.map (sunlightRule cfg)

/-- Modelled from the spec: severity weights of the layer score formula,
violation 1, warning one half, info and pass 0 (spec section 4.4); the
backend engine source is missing from the repository. -/
def severityWeight : Severity → ℚ
  | Severity.violation => 1
  | Severity.warning => 1 / 2
  | Severity.info => 0
  | Severity.pass => 0

/-- Modelled from the spec: the weighted violation count of a list of
findings (spec section 4.4); the backend engine source is missing from
the repository. -/
def weightedCount : List Finding → ℚ
  | [] => 0
  | f :: fs => severityWeight f.severity + weightedCount fs

/-- Modelled from the spec: the layer score, 100 times one minus the
weighted violation count over the number of evaluations, clamped to the
interval from 0 to 100; a layer with zero applicable evaluations is
marked not-applicable, returned as none (spec section 4.4).  The backend
engine source is missing from the repository. -/
def layerScoreOpt (fs : List Finding) : Option ℚ :=
  if fs = [] then none
  else some (max 0 (min 100 (100 * (1 - weightedCount fs / (fs.length : ℚ)))))

/-- Modelled from the spec: the arithmetic mean of the applicable layer
scores (spec section 4.4); the backend engine source is missing from the
repository. -/
def meanOpt (xs : List ℚ) : Option ℚ :=
  if xs = [] then none else some (xs.sum / (xs.length : ℚ))

/-- Modelled from the spec: the set of requested layers (spec section
6); the backend engine source is missing from the repository. -/
structure LayerSet where
  building_code : Bool
  vastu : Bool
  sunlight : Bool
deriving DecidableEq

def allLayers : LayerSet := ⟨true, true, true⟩

/-- Modelled from the spec: the requested layers in the fixed report
order building_code, vastu, sunlight (spec section 4.4); the backend
engine source is missing from the repository. -/
def requestedLayers (s : LayerSet) : List Layer :=
  (if s.building_code then [Layer.building_code] else []) ++
    (if s.vastu then [Layer.vastu] else []) ++
    (if s.sunlight then [Layer.sunlight] else [])

/-- Modelled from the spec: the ComplianceReport record (spec section 3);
a layer score of none marks a not-applicable layer.  The backend engine
source is missing from the repository. -/
structure ComplianceReport where
  findings : List Finding
  layer_scores : List (Layer × Option ℚ)
  overall_score : Option ℚ
deriving DecidableEq

/-- Modelled from the spec: the Aggregator entry point evaluate (spec
sections 4.4 and 6): run each requested layer over the plan, group
findings by layer in the fixed order, score each layer and average the
applicable layer scores.  The backend engine source is missing from the
repository. -/
def evaluate (cfg : Config) (fp : FloorPlan) (s : LayerSet) : ComplianceReport :=
  let per := (requestedLayers s).map (fun l => (l, evaluateLayer cfg fp l))
  { findings := (per.map Prod.snd).flatten,
    layer_scores := per.map (fun p => (p.1, layerScoreOpt p.2)),
    overall_score := meanOpt ((per.map (fun p => layerScoreOpt p.2)).filterMap id) }

/-- Modelled from the spec: the documented default minimum-area table,
bedroom 70, bathroom 25, kitchen 50 (spec section 4.1). -/
def defaultMinArea : RoomType → Option ℚ
  | RoomType.bedroom => some 70
  | RoomType.bathroom => some 25
  | RoomType.kitchen => some 50
  | _ => none

/-- Modelled from the spec: a default Vastu preference table, preferred
directions first, inauspicious directions second (spec section 4.2). -/
def defaultVastuPreferences : RoomType → Option (List Direction × List Direction)
  | RoomType.bedroom => some ([Direction.southwest, Direction.south], [Direction.northeast, Direction.west])
  | RoomType.kitchen => some ([Direction.southeast], [Direction.north, Direction.northeast])
  | RoomType.pooja => some ([Direction.northeast], [Direction.south])
  | RoomType.living_room => some ([Direction.north, Direction.east], [])
  | RoomType.entrance => some ([Direction.north, Direction.east], [Direction.southwest])
  | _ => none

/-- Modelled from the spec: the default direction to exposure table in
the northern-hemisphere convention (spec section 4.3). -/
def defaultExposure : Direction → Exposure
  | Direction.north => Exposure.low
  | Direction.northwest => Exposure.low
  | Direction.northeast => Exposure.medium
  | Direction.southwest => Exposure.medium
  | Direction.west => Exposure.medium
  | Direction.east => Exposure.high
  | Direction.southeast => Exposure.high
  | Direction.south => Exposure.high

/-- Modelled from the spec: the default desired exposure by room type
(spec section 4.3). -/
def defaultDesired : RoomType → Option Exposure
  | RoomType.bedroom => some Exposure.medium
  | RoomType.kitchen => some Exposure.high
  | RoomType.living_room => some Exposure.high
  | RoomType.study => some Exposure.medium
  | RoomType.bathroom => some Exposure.low
  | _ => none

def defaultConfig : Config :=
  ⟨defaultMinArea, defaultVastuPreferences, defaultExposure, defaultDesired⟩

def sampleBedroom : Room :=
  ⟨"room_1", RoomType.bedroom, 50, Direction.west, 0, 1⟩

def studyRoom : Room :=
  ⟨"room_2", RoomType.study, 40, Direction.east, 1, 1⟩

def samplePlan : FloorPlan :=
  ⟨[sampleBedroom, studyRoom], ⟨1200, 1, BuildingType.residential⟩⟩

def commercialPlan : FloorPlan :=
  ⟨[sampleBedroom], ⟨1200, 1, BuildingType.commercial⟩⟩

def emptyPlan : FloorPlan :=
  ⟨[], ⟨1200, 1, BuildingType.residential⟩⟩

/-- The toggleTheme function of
src/frontend/src/utils/ThemeContext.js: the previous theme maps to light
when it was dark and to dark otherwise. -/
def toggleTheme (theme : String) : String :=
  if theme == "dark" then "light" else "dark"

/-- The data part of the context value object built by ThemeProvider in
src/frontend/src/utils/ThemeContext.js. -/
structure ThemeValue where
  theme : String
  isDark : Bool
  isLight : Bool
deriving DecidableEq

/-- The useTheme hook of src/frontend/src/utils/ThemeContext.js: a falsy
context value throws an Error with a fixed message, otherwise the context
is returned. -/
def useTheme (context : Option ThemeValue) : Except String ThemeValue :=
  match context with
  | none => Except.error "useTheme must be used within a ThemeProvider"
  | some c => Except.ok c

/-- What the route table of src/frontend/src/App.js renders for a
path. -/
inductive RenderedRoute
  | homePage
  | analysisPage
  | resultsPage
  | navigate (dest : String) (replace : Bool)
deriving DecidableEq

/-- The Routes element of the App component in src/frontend/src/App.js:
the first matching route wins and the catch-all star route renders a
Navigate to the root with replace semantics. -/
def appRoute (path : String) : RenderedRoute :=
  if path = "/" then RenderedRoute.homePage
  else if path = "/analysis" then RenderedRoute.analysisPage
  else if path = "/results" then RenderedRoute.resultsPage
  else RenderedRoute.navigate "/" true


lemma weightedCount_eq_map_sum (fs : List Finding) :
    weightedCount fs = (fs.map (fun f => severityWeight f.severity)).sum := by
  induction fs with
  | nil => simp [weightedCount]
  | cons f fs ih => simp [weightedCount, ih]

lemma evaluate_findings_eq (cfg : Config) (fp : FloorPlan) (s : LayerSet) :
    (evaluate cfg fp s).findings =
      (if s.building_code then evaluateLayer cfg fp Layer.building_code else []) ++
        (if s.vastu then evaluateLayer cfg fp Layer.vastu else []) ++
        (if s.sunlight then evaluateLayer cfg fp Layer.sunlight else []) := by
  obtain ⟨b1, b2, b3⟩ := s
  cases b1 <;> cases b2 <;> cases b3 <;>
    simp [evaluate, requestedLayers]

lemma sunlightRule_room_id (cfg : Config) (r : Room) :
    (sunlightRule cfg r).room_id = some r.id := rfl

lemma vastuRule_room_id (cfg : Config) (r : Room) :
    (vastuRule cfg r).room_id = some r.id := rfl

/-- Claim C1: evaluate is deterministic and its findings are grouped by
layer in the fixed order building_code, vastu, sunlight, within a layer
in room insertion order. -/
theorem evaluate_deterministic_ordered (cfg : Config) (fp : FloorPlan) (s : LayerSet) :
    evaluate cfg fp s = evaluate cfg fp s ∧
    (evaluate cfg fp s).findings =
      (if s.building_code then evaluateLayer cfg fp Layer.building_code else []) ++
        (if s.vastu then evaluateLayer cfg fp Layer.vastu else []) ++
        (if s.sunlight then evaluateLayer cfg fp Layer.sunlight else []) ∧
    (evaluateLayer cfg fp Layer.sunlight).map Finding.room_id =
      fp.rooms.map (fun r => some r.id) ∧
    (fp.building_info.building_type = BuildingType.residential →
      (evaluateLayer cfg fp Layer.vastu).map Finding.room_id =
        fp.rooms.map (fun r => some r.id)) := by
  refine ⟨rfl, evaluate_findings_eq cfg fp s, ?_, ?_⟩
  · simp [evaluateLayer, List.map_map, Function.comp, sunlightRule_room_id]
  · intro h
    simp [evaluateLayer, h, List.map_map, Function.comp, vastuRule_room_id]


/-- Claim C2: a layer with at least one evaluation scores 100 times one
minus the weighted violation count over the number of evaluations,
clamped to the interval from 0 to 100, where a violation weighs 1, a
warning one half, info and pass 0; a layer with zero evaluations is
marked not-applicable. -/
theorem layer_score_formula (cfg : Config) (fp : FloorPlan) (l : Layer)
    (h : evaluateLayer cfg fp l ≠ []) :
    layerScoreOpt (evaluateLayer cfg fp l) =
      some (max 0 (min 100 (100 * (1 -
        ((evaluateLayer cfg fp l).map (fun f => severityWeight f.severity)).sum /
          ((evaluateLayer cfg fp l).length : ℚ))))) ∧
    layerScoreOpt [] = none ∧
    ∀ q : ℚ, layerScoreOpt (evaluateLayer cfg fp l) = some q → 0 ≤ q ∧ q ≤ 100 := by
  refine ⟨?_, rfl, ?_⟩
  · rw [layerScoreOpt, if_neg h, weightedCount_eq_map_sum]
  · intro q hq
    rw [layerScoreOpt, if_neg h, Option.some_inj] at hq
    subst hq
    refine ⟨le_max_left 0 _, ?_⟩
    exact max_le (by norm_num) (min_le_left _ _)

/-- Witness for claim C2 at the sunlight layer of the sample plan. -/
theorem layer_score_formula_witness :
    evaluateLayer defaultConfig samplePlan Layer.sunlight ≠ [] ∧
    layerScoreOpt (evaluateLayer defaultConfig samplePlan Layer.sunlight) =
      some (max 0 (min 100 (100 * (1 -
        ((evaluateLayer defaultConfig samplePlan Layer.sunlight).map
            (fun f => severityWeight f.severity)).sum /
          ((evaluateLayer defaultConfig samplePlan Layer.sunlight).length : ℚ))))) :=
  ⟨by decide, (layer_score_formula defaultConfig samplePlan Layer.sunlight (by decide)).1⟩

/-- Claim C3: with a configured threshold the minimum-area rule yields
exactly one finding for the room, a violation below the threshold, info
within 10 percent above it, and pass beyond that; the finding carries the
minimum-area rule id. -/
theorem min_area_rule_characterization (cfg : Config) (r : Room) (t : ℚ)
    (ht : 0 ≤ t) (h : cfg.minAreaByType r.type = some t) :
    (bcRoomFindings cfg r).filter (fun f => f.rule_id == minAreaRuleId) =
      [minAreaRule cfg r] ∧
    (minAreaRule cfg r).rule_id = minAreaRuleId ∧
    (r.area < t → (minAreaRule cfg r).severity = Severity.violation) ∧
    (t ≤ r.area → r.area ≤ t * (11 / 10) → (minAreaRule cfg r).severity = Severity.info) ∧
    (t * (11 / 10) < r.area → (minAreaRule cfg r).severity = Severity.pass) := by
  refine ⟨?_, rfl, ?_, ?_, ?_⟩
  · unfold bcRoomFindings windowRule exitRule
    split_ifs <;> rfl
  · intro hlt
    simp [minAreaRule, minAreaOutcome, h, if_pos hlt]
  · intro hge hle
    have hnlt : ¬ r.area < t := not_lt.mpr hge
    simp [minAreaRule, minAreaOutcome, h, if_neg hnlt, if_pos hle]
  · intro hgt
    have hband : t ≤ t * (11 / 10) := by linarith
    have hnlt : ¬ r.area < t := not_lt.mpr (le_trans hband hgt.le)
    have hnle : ¬ r.area ≤ t * (11 / 10) := not_le.mpr hgt
    simp [minAreaRule, minAreaOutcome, h, if_neg hnlt, if_neg hnle]


/-- Witness for claim C3 at the undersized sample bedroom. -/
theorem min_area_rule_characterization_witness :
    (0 : ℚ) ≤ 70 ∧ defaultConfig.minAreaByType sampleBedroom.type = some 70 ∧
    sampleBedroom.area < 70 ∧
    (bcRoomFindings defaultConfig sampleBedroom).filter
        (fun f => f.rule_id == minAreaRuleId) =
      [minAreaRule defaultConfig sampleBedroom] ∧
    (minAreaRule defaultConfig sampleBedroom).severity = Severity.violation := by
  have H := min_area_rule_characterization defaultConfig sampleBedroom 70
    (by decide) (by decide)
  exact ⟨by decide, by decide, by decide, H.1, H.2.2.1 (by decide)⟩

lemma vastu_layer_empty_of_nonresidential (cfg : Config) (fp : FloorPlan)
    (h : fp.building_info.building_type ≠ BuildingType.residential) :
    evaluateLayer cfg fp Layer.vastu = [] := by
  simp [evaluateLayer, h]

/-- Claim C4: for a non-residential plan the Vastu layer yields no
findings, its score is marked not-applicable rather than any number, and
the overall score averages only the remaining applicable layer scores. -/
theorem vastu_not_applicable_nonresidential (cfg : Config) (fp : FloorPlan)
    (h : fp.building_info.building_type ≠ BuildingType.residential) :
    evaluateLayer cfg fp Layer.vastu = [] ∧
    (evaluate cfg fp allLayers).layer_scores =
      [(Layer.building_code, layerScoreOpt (evaluateLayer cfg fp Layer.building_code)),
       (Layer.vastu, none),
       (Layer.sunlight, layerScoreOpt (evaluateLayer cfg fp Layer.sunlight))] ∧
    (∀ q : ℚ, (Layer.vastu, some q) ∉ (evaluate cfg fp allLayers).layer_scores) ∧
    (evaluate cfg fp allLayers).overall_score =
      meanOpt ([layerScoreOpt (evaluateLayer cfg fp Layer.building_code),
                layerScoreOpt (evaluateLayer cfg fp Layer.sunlight)].filterMap id) := by
  have hv := vastu_layer_empty_of_nonresidential cfg fp h
  have hs : layerScoreOpt (evaluateLayer cfg fp Layer.vastu) = none := by
    rw [hv]; rfl
  refine ⟨hv, ?_, ?_, ?_⟩
  · simp [evaluate, requestedLayers, allLayers, hs]
  · intro q
    simp [evaluate, requestedLayers, allLayers, hs]
  · cases hbc : layerScoreOpt (evaluateLayer cfg fp Layer.building_code) <;>
      simp [evaluate, requestedLayers, allLayers, hs, hbc]

/-- Witness for claim C4 at the commercial sample plan. -/
theorem vastu_not_applicable_nonresidential_witness :
    commercialPlan.building_info.building_type ≠ BuildingType.residential ∧
    evaluateLayer defaultConfig commercialPlan Layer.vastu = [] :=
  ⟨by decide,
    (vastu_not_applicable_nonresidential defaultConfig commercialPlan (by decide)).1⟩

lemma sunlightOutcome_severity (cfg : Config) (r : Room) :
    (sunlightOutcome cfg r).1 = Severity.pass ∨
      (sunlightOutcome cfg r).1 = Severity.info ∨
      (sunlightOutcome cfg r).1 = Severity.warning := by
  unfold sunlightOutcome
  rcases cfg.sunlightDesiredByType r.type with _ | want
  · simp
  · simp only
    split_ifs <;> simp

/-- Claim C5: every finding of the sunlight layer has severity pass, info
or warning and never violation. -/
theorem sunlight_never_violation (cfg : Config) (fp : FloorPlan) (f : Finding)
    (h : f ∈ evaluateLayer cfg fp Layer.sunlight) :
    f.severity ≠ Severity.violation ∧
    (f.severity = Severity.pass ∨ f.severity = Severity.info ∨
      f.severity = Severity.warning) := by
  simp only [evaluateLayer, List.mem_map] at h
  obtain ⟨r, _, rfl⟩ := h
  have hs := sunlightOutcome_severity cfg r
  have hsev : (sunlightRule cfg r).severity = (sunlightOutcome cfg r).1 := rfl
  rw [hsev]
  rcases hs with h1 | h1 | h1 <;> rw [h1] <;> simp

/-- Witness for claim C5 at the sample bedroom of the sample plan. -/
theorem sunlight_never_violation_witness :
    sunlightRule defaultConfig sampleBedroom ∈
      evaluateLayer defaultConfig samplePlan Layer.sunlight ∧
    (sunlightRule defaultConfig sampleBedroom).severity ≠ Severity.violation :=
  ⟨by decide,
    (sunlight_never_violation defaultConfig samplePlan
      (sunlightRule defaultConfig sampleBedroom) (by decide)).1⟩


lemma evaluateLayer_nil_of_no_rooms (cfg : Config) (fp : FloorPlan)
    (hv : 0 < fp.building_info.total_area) (h : fp.rooms = []) (l : Layer) :
    evaluateLayer cfg fp l = [] := by
  cases l
  · simp only [evaluateLayer, h, List.flatMap_nil, List.nil_append,
      areaConsistencyFindings, List.map_nil, List.sum_nil]
    rw [if_neg (by linarith)]
  · simp [evaluateLayer, h]
  · simp [evaluateLayer, h]

/-- Claim C6: a valid plan with zero rooms yields an empty finding
sequence, and every requested layer is scored 100 or marked
not-applicable (here not-applicable, by the zero-evaluations rule). -/
theorem empty_plan_report (cfg : Config) (fp : FloorPlan) (s : LayerSet)
    (hv : ValidFloorPlan fp) (h : fp.rooms = []) :
    (evaluate cfg fp s).findings = [] ∧
    ∀ p ∈ (evaluate cfg fp s).layer_scores,
      p.2 = some 100 ∨ p.2 = none := by
  have hnil := evaluateLayer_nil_of_no_rooms cfg fp hv.1 h
  constructor
  · rw [evaluate_findings_eq]
    rw [hnil Layer.building_code, hnil Layer.vastu, hnil Layer.sunlight]
    simp
  · intro p hp
    simp only [evaluate, List.map_map, List.mem_map, Function.comp] at hp
    obtain ⟨l, _, rfl⟩ := hp
    right
    show layerScoreOpt (evaluateLayer cfg fp l) = none
    rw [hnil l]
    rfl

/-- Witness for claim C6 at the empty sample plan. -/
theorem empty_plan_report_witness :
    ValidFloorPlan emptyPlan ∧ emptyPlan.rooms = [] ∧
    (evaluate defaultConfig emptyPlan allLayers).findings = [] :=
  ⟨by decide, by decide,
    (empty_plan_report defaultConfig emptyPlan allLayers (by decide) (by decide)).1⟩

/-- Claim C7: a room type missing from any injected rule table never
aborts the analysis: the affected rule evaluation for that room, whether
the minimum-area, Vastu preference or desired-exposure table is the one
missing the entry, degrades to a single info finding saying the rule is
not configured, and the rest of the report is still produced: the rooms
building-code, Vastu (for residential plans) and sunlight findings all
remain in the report. -/
theorem config_missing_degrades (cfg : Config) (fp : FloorPlan) (r : Room)
    (h1 : r ∈ fp.rooms) :
    (cfg.minAreaByType r.type = none →
      (minAreaRule cfg r).severity = Severity.info ∧
      (minAreaRule cfg r).message = "rule not configured for this room type") ∧
    (fp.building_info.building_type = BuildingType.residential →
      cfg.vastuPreferences r.type = none →
      (vastuRule cfg r).severity = Severity.info ∧
      (vastuRule cfg r).message = "rule not configured for this room type") ∧
    (cfg.sunlightDesiredByType r.type = none →
      (sunlightRule cfg r).severity = Severity.info ∧
      (sunlightRule cfg r).message = "rule not configured for this room type") ∧
    minAreaRule cfg r ∈ (evaluate cfg fp allLayers).findings ∧
    (fp.building_info.building_type = BuildingType.residential →
      vastuRule cfg r ∈ (evaluate cfg fp allLayers).findings) ∧
    sunlightRule cfg r ∈ (evaluate cfg fp allLayers).findings := by
  have hfind := evaluate_findings_eq cfg fp allLayers
  refine ⟨?_, ?_, ?_, ?_, ?_, ?_⟩
  · intro h2
    constructor
    · simp [minAreaRule, minAreaOutcome, h2]
    · simp [minAreaRule, minAreaOutcome, h2]
  · intro _ h2
    constructor
    · simp [vastuRule, vastuOutcome, h2]
    · simp [vastuRule, vastuOutcome, h2]
  · intro h2
    constructor
    · simp [sunlightRule, sunlightOutcome, h2]
    · simp [sunlightRule, sunlightOutcome, h2]
  · rw [hfind]
    simp only [allLayers, if_pos, List.mem_append]
    left; left
    simp only [evaluateLayer, List.mem_append]
    left
    rw [List.mem_flatMap]
    exact ⟨r, h1, by simp [bcRoomFindings]⟩
  · intro hres
    rw [hfind]
    simp only [allLayers, if_pos, List.mem_append]
    left; right
    simp only [evaluateLayer, hres, if_pos, List.mem_map]
    exact ⟨r, h1, rfl⟩
  · rw [hfind]
    simp only [allLayers, if_pos, List.mem_append]
    right
    simp only [evaluateLayer, List.mem_map]
    exact ⟨r, h1, rfl⟩

/-- Witness for claim C7 at the study room of the sample plan, a room
type with no entry in the default minimum-area table and none in the
default Vastu preference table. -/
theorem config_missing_degrades_witness :
    studyRoom ∈ samplePlan.rooms ∧
    (minAreaRule defaultConfig studyRoom).severity = Severity.info ∧
    (vastuRule defaultConfig studyRoom).severity = Severity.info ∧
    sunlightRule defaultConfig studyRoom ∈
      (evaluate defaultConfig samplePlan allLayers).findings := by
  have H := config_missing_degrades defaultConfig samplePlan studyRoom (by decide)
  exact ⟨by decide, (H.1 (by decide)).1, (H.2.1 (by decide) (by decide)).1,
    H.2.2.2.2.2⟩

/-- Claim C8: toggleTheme swaps light and dark and is an involution on
that pair. -/
theorem toggleTheme_involution :
    toggleTheme "light" = "dark" ∧ toggleTheme "dark" = "light" ∧
    toggleTheme (toggleTheme "light") = "light" ∧
    toggleTheme (toggleTheme "dark") = "dark" := by
  decide

/-- Claim C9: useTheme on an absent context throws the fixed error
message and never returns a value. -/
theorem useTheme_throws_without_provider :
    useTheme none = Except.error "useTheme must be used within a ThemeProvider" ∧
    ∀ v : ThemeValue, useTheme none ≠ Except.ok v := by
  refine ⟨rfl, ?_⟩
  intro v hcontra
  exact Except.noConfusion hcontra

/-- Claim C10: every path other than the three configured routes renders
a replacing Navigate to the root, never a page component. -/
theorem router_unknown_redirects (p : String)
    (h1 : p ≠ "/") (h2 : p ≠ "/analysis") (h3 : p ≠ "/results") :
    appRoute p = RenderedRoute.navigate "/" true ∧
    appRoute p ≠ RenderedRoute.homePage ∧
    appRoute p ≠ RenderedRoute.analysisPage ∧
    appRoute p ≠ RenderedRoute.resultsPage := by
  have hroute : appRoute p = RenderedRoute.navigate "/" true := by
    unfold appRoute
    rw [if_neg h1, if_neg h2, if_neg h3]
  refine ⟨hroute, ?_, ?_, ?_⟩ <;> rw [hroute] <;> intro hcontra <;>
    exact RenderedRoute.noConfusion hcontra

/-- Witness for claim C10 at an unknown path. -/
theorem router_unknown_redirects_witness :
    ("/unknown" ≠ "/" ∧ "/unknown" ≠ "/analysis" ∧ "/unknown" ≠ "/results") ∧
    appRoute "/unknown" = RenderedRoute.navigate "/" true :=
  ⟨by decide,
    (router_unknown_redirects "/unknown" (by decide) (by decide) (by decide)).1⟩

end VastuHelper
